import Mathlib

/-!
Shallow embedding of the database-design module
(backend/utils/db_design.py) of the NL2SQL_Convertor repository:
the schema data model, the normalization analyzer
(check_normalization_level), the schema normalizer
(generate_normalized_schema with _identify_lookup_tables), the SQL
exporter (export_schema_to_sql) and the ER-diagram emitter
(generate_er_diagram_dot), together with theorems settling the frozen
claims about them.
-/

/-- Python membership test `needle in haystack` on strings
(substring containment; the empty needle is contained in everything). -/
def pyIn (needle haystack : String) : Bool :=
  pyInAux needle.data haystack.data
where
  pyInAux (n : List Char) : List Char → Bool
    | [] => n.isEmpty
    | c :: rest => n.isPrefixOf (c :: rest) || pyInAux n rest

/-- Python `s.replace("_id", "")` on the character list: remove every
(leftmost, non-overlapping) occurrence of the three characters `_id`. -/
def stripIdChars : List Char → List Char
  | '_' :: 'i' :: 'd' :: rest => stripIdChars rest
  | c :: rest => c :: stripIdChars rest
  | [] => []

/-- Python `s.replace("_id", "")` on strings. -/
def stripIdStr (s : String) : String := ⟨stripIdChars s.data⟩

/-- Python `s.lower()`, character by character (the byte-position-based
`String.toLower` is unfolded to its character-list form). -/
def pyLower (s : String) : String := ⟨s.data.map Char.toLower⟩

/-- Python `s.upper()`, character by character. -/
def pyUpper (s : String) : String := ⟨s.data.map Char.toUpper⟩

/-- Python `s.split("_")[0]`: the characters before the first
underscore (the whole string when it has none). -/
def firstToken (s : String) : String :=
  ⟨s.data.takeWhile (fun c => c ≠ '_')⟩

/-- Python `s.startswith(pre)`. -/
def pyStartsWith (pre s : String) : Bool := pre.data.isPrefixOf s.data

/-- Python `s.title()` restricted to the single lowercase words it is
applied to (the fixed enum tokens): capitalize the first character. -/
def pyTitle (s : String) : String :=
  match s.data with
  | [] => ""
  | c :: rest => ⟨c.toUpper :: rest⟩

/-- Truthiness of a Python `Optional[str]`: `None` and the empty string
are falsy, every other string is truthy. -/
def pyTruthyStr : Option String → Bool
  | none => false
  | some s => !s.data.isEmpty

/-- Scalar default values occurring in schemas (Python `Any`, restricted
to the string/integer scalars the exporter distinguishes). -/
inductive PyScalar where
  | str (v : String)
  | int (v : Int)
deriving DecidableEq

/-- Dataclass `Column` of db_design.py. -/
structure Column where
  name : String
  data_type : String
  nullable : Bool := true
  primary_key : Bool := false
  foreign_key : Option String := none
  unique : Bool := false
  default_value : Option PyScalar := none
  description : String := ""
deriving DecidableEq

/-- One entry of a table's `foreign_keys` list: the dict
`{source_column, target_table, target_column}`. -/
structure ForeignKeySpec where
  source_column : String
  target_table : String
  target_column : String
deriving DecidableEq

/-- Dataclass `Table` of db_design.py (`indexes=None` becomes `[]` in
`__post_init__`). -/
structure Table where
  name : String
  columns : List Column
  primary_keys : List String
  foreign_keys : List ForeignKeySpec
  indexes : List String := []
  description : String := ""
deriving DecidableEq

/-- Dataclass `Relationship` of db_design.py. -/
structure Relationship where
  source_table : String
  target_table : String
  source_columns : List String
  target_columns : List String
  relationship_type : String
  constraint_name : String := ""
deriving DecidableEq

/-- Dataclass `DatabaseSchema` of db_design.py (`views`/`indexes`
default to `[]`; they hold opaque metadata records never inspected by
the analyzer or the exporter, modelled as strings). -/
structure DatabaseSchema where
  name : String
  tables : List Table
  relationships : List Relationship
  views : List String := []
  indexes : List String := []
deriving DecidableEq

/-- A 1NF or 2NF violation record `{table, column, issue}`. -/
structure ColumnViolation where
  table : String
  column : String
  issue : String
deriving DecidableEq

/-- A 3NF violation record `{table, columns, issue}`. -/
structure PairViolation where
  table : String
  columns : List String
  issue : String
deriving DecidableEq

/-- One normal-form section of the analysis dict:
`{compliant: bool, violations: [...]}`. -/
structure NFSection (α : Type) where
  compliant : Bool
  violations : List α
deriving DecidableEq

/-- The dict returned by `check_normalization_level`. -/
structure NormalizationReport where
  first_normal_form : NFSection ColumnViolation
  second_normal_form : NFSection ColumnViolation
  third_normal_form : NFSection PairViolation
  recommendations : List String
deriving DecidableEq

/-- The 1NF trigger test of check_normalization_level:
some keyword of `json, array, list, multi` occurs in the lowered
column name. -/
def is1NFTrigger (c : Column) : Bool :=
  ["json", "array", "list", "multi"].any (fun kw => pyIn kw (pyLower c.name))

/-- 1NF violations contributed by one table, in column order. -/
def viol1NF (t : Table) : List ColumnViolation :=
  t.columns.filterMap (fun c =>
    if is1NFTrigger c then
      some ⟨t.name, c.name, "Potential non-atomic values"⟩
    else none)

/-- 2NF violations contributed by one table: only when the table has a
composite primary key (more than one member); a non-key column (name
not among `primary_keys`) is flagged when its name starts with the
first primary-key column's name split on `_`, first token. -/
def viol2NF (t : Table) : List ColumnViolation :=
  match t.primary_keys with
  | pk0 :: _ :: _ =>
    (t.columns.filter (fun c => !(t.primary_keys.contains c.name))).filterMap
      (fun c =>
        if pyStartsWith (firstToken pk0) c.name then
          some ⟨t.name, c.name, "Partial dependency on composite key"⟩
        else none)
  | _ => []

/-- 3NF violations contributed by one table: the ordered double loop
over columns, flagging `(col1, col2)` when the two are unequal (Python
dataclass value inequality), neither is a primary key, and `col1`'s
name with every occurrence of `_id` removed is a substring of `col2`'s
name. -/
def viol3NF (t : Table) : List PairViolation :=
  t.columns.flatMap (fun c1 =>
    t.columns.filterMap (fun c2 =>
      if c1 ≠ c2 ∧ c1.primary_key = false ∧ c2.primary_key = false ∧
          pyIn (stripIdStr c1.name) c2.name = true then
        some ⟨t.name, [c1.name, c2.name], "Potential transitive dependency"⟩
      else none))

/-- `DatabaseDesignAnalyzer.check_normalization_level`: each section's
violation list accumulates over tables in schema order; `compliant`
is flipped to false exactly when a violation is appended, hence equals
emptiness of the final list; the three fixed recommendations are
appended for the non-compliant levels in the fixed 1NF, 2NF, 3NF
order. -/
def check_normalization_level (s : DatabaseSchema) : NormalizationReport :=
  let v1 := s.tables.flatMap viol1NF
  let v2 := s.tables.flatMap viol2NF
  let v3 := s.tables.flatMap viol3NF
  { first_normal_form := ⟨v1.isEmpty, v1⟩
    second_normal_form := ⟨v2.isEmpty, v2⟩
    third_normal_form := ⟨v3.isEmpty, v3⟩
    recommendations :=
      (if v1.isEmpty then [] else
        ["Split non-atomic values into separate columns or tables"]) ++
      (if v2.isEmpty then [] else
        ["Move partially dependent columns to separate tables"]) ++
      (if v3.isEmpty then [] else
        ["Remove transitive dependencies by creating lookup tables"]) }

/-- The per-dialect type-name tables of `export_schema_to_sql`. -/
def mysqlTypes : List (String × String) :=
  [("INTEGER", "INT"), ("TEXT", "TEXT"), ("REAL", "DECIMAL(10,2)"),
   ("BLOB", "BLOB"), ("VARCHAR", "VARCHAR")]

/-- postgresql entry of the type-mapping table. -/
def postgresqlTypes : List (String × String) :=
  [("INTEGER", "INTEGER"), ("TEXT", "TEXT"), ("REAL", "DECIMAL"),
   ("BLOB", "BYTEA"), ("VARCHAR", "VARCHAR")]

/-- sqlite entry of the type-mapping table. -/
def sqliteTypes : List (String × String) :=
  [("INTEGER", "INTEGER"), ("TEXT", "TEXT"), ("REAL", "REAL"),
   ("BLOB", "BLOB"), ("VARCHAR", "TEXT")]

/-- `type_mapping.get(dialect, type_mapping["mysql"])`: the mysql table
is the fallback for every dialect outside the three supported keys. -/
def typeMappingFor (dialect : String) : List (String × String) :=
  if dialect = "mysql" then mysqlTypes
  else if dialect = "postgresql" then postgresqlTypes
  else if dialect = "sqlite" then sqliteTypes
  else mysqlTypes

/-- One column definition line of a CREATE TABLE statement:
`mapping.get(data_type, data_type)` plus the NOT NULL / DEFAULT /
UNIQUE suffixes (string defaults quoted). -/
def columnDef (mapping : List (String × String)) (c : Column) : String :=
  "    " ++ c.name ++ " " ++ ((mapping.lookup c.data_type).getD c.data_type) ++
  (if c.nullable then "" else " NOT NULL") ++
  (match c.default_value with
   | none => ""
   | some (PyScalar.str v) => " DEFAULT \x27" ++ v ++ "\x27"
   | some (PyScalar.int n) => " DEFAULT " ++ toString n) ++
  (if c.unique then " UNIQUE" else "")

/-- The CREATE TABLE statement for one table: column definitions in
schema order, then a trailing PRIMARY KEY constraint line when
`primary_keys` is non-empty. -/
def createStatement (mapping : List (String × String)) (t : Table) : String :=
  "CREATE TABLE " ++ t.name ++ " (\n" ++
  String.intercalate ",\n"
    (t.columns.map (columnDef mapping) ++
     (if t.primary_keys.isEmpty then [] else
       ["    PRIMARY KEY (" ++ String.intercalate ", " t.primary_keys ++ ")"])) ++
  "\n);\n"

/-- The statements contributed by one table: its comment header, its
description comment when non-empty, and its CREATE TABLE statement. -/
def tableStatements (mapping : List (String × String)) (t : Table) : List String :=
  ["-- Table: " ++ t.name] ++
  (if t.description.data.isEmpty then [] else ["-- " ++ t.description]) ++
  [createStatement mapping t]

/-- The ALTER TABLE ... ADD FOREIGN KEY statements of one table. -/
def fkStatements (t : Table) : List String :=
  t.foreign_keys.map (fun fk =>
    "ALTER TABLE " ++ t.name ++ " ADD FOREIGN KEY (" ++ fk.source_column ++
    ") REFERENCES " ++ fk.target_table ++ "(" ++ fk.target_column ++ ");")

/-- Body of `export_schema_to_sql` with the already-selected type
mapping: header comments, per-table statements, then all foreign-key
ALTER statements, joined by newlines. -/
def exportWithMapping (s : DatabaseSchema) (dialect : String)
    (mapping : List (String × String)) : String :=
  String.intercalate "\n"
    (["-- Database Schema: " ++ s.name,
      "-- Generated for " ++ pyUpper dialect,
      "-- Tables: " ++ toString s.tables.length,
      ""] ++
     s.tables.flatMap (tableStatements mapping) ++
     s.tables.flatMap fkStatements)

/-- `DatabaseDesignAnalyzer.export_schema_to_sql`. -/
def export_schema_to_sql (s : DatabaseSchema) (dialect : String) : String :=
  exportWithMapping s dialect (typeMappingFor dialect)

/-- The fixed enum-like token list of `_identify_lookup_tables`. -/
def enumPatterns : List String :=
  ["status", "type", "category", "level", "priority"]

/-- Insertion into the lookup-table dict: append the column to an
existing key's list, or add a new key at the end (Python dict
insertion order). -/
def addLookup : List (String × List Column) → String → Column →
    List (String × List Column)
  | [], k, v => [(k, [v])]
  | (k0, vs) :: rest, k, v =>
    if k0 = k then (k0, vs ++ [v]) :: rest else (k0, vs) :: addLookup rest k v

/-- The column stored in a lookup table for a matched token: named
after the token, copying the matched column's declared type
(`pattern.title()` on these single lowercase tokens is
capitalization). -/
def lookupColumnFor (pattern : String) (c : Column) : Column :=
  { name := pattern
    data_type := c.data_type
    description := pyTitle pattern ++ " values" }

/-- `DatabaseDesignAnalyzer._identify_lookup_tables`: for each column
(in order) and each enum token (in order), when the token occurs in
the lowered column name and the column is not a primary key, record a
lookup column under the key `<table>_<token>s`. -/
def identify_lookup_tables (t : Table) : List (String × List Column) :=
  t.columns.foldl (fun m c =>
    enumPatterns.foldl (fun m p =>
      if pyIn p (pyLower c.name) && !c.primary_key then
        addLookup m (t.name ++ "_" ++ p ++ "s") (lookupColumnFor p c)
      else m) m) []

/-- Processing of one lookup-table entry inside
`generate_normalized_schema`: append the lookup table, filter the
matched columns out of the working column list and append the new
foreign-key column, and record the new many-to-one relationship. -/
def processLookup (tname : String)
    (st : List Table × List Relationship × List Column)
    (kv : String × List Column) :
    List Table × List Relationship × List Column :=
  let lookupT : Table :=
    { name := kv.1
      columns :=
        { name := "id"
          data_type := "INTEGER"
          primary_key := true
          nullable := false } :: kv.2
      primary_keys := ["id"]
      foreign_keys := []
      description := "Lookup table for " ++ tname }
  let fkCol : Column :=
    { name := kv.1 ++ "_id"
      data_type := "INTEGER"
      foreign_key := some (kv.1 ++ ".id") }
  let cols :=
    (st.2.2.filter (fun c => !((kv.2.map Column.name).contains c.name))) ++
    [fkCol]
  let rel : Relationship :=
    { source_table := tname
      target_table := kv.1
      source_columns := [fkCol.name]
      target_columns := ["id"]
      relationship_type := "many-to-one" }
  (st.1 ++ [lookupT], st.2.1 ++ [rel], cols)

/-- Processing of one table inside `generate_normalized_schema`: its
lookup tables are appended first (during the loop), then the
normalized original table (columns as rewritten by the loop,
description suffixed, indexes reset by Table construction). -/
def processTable (acc : List Table × List Relationship) (t : Table) :
    List Table × List Relationship :=
  let res := (identify_lookup_tables t).foldl (processLookup t.name)
    (acc.1, acc.2, t.columns)
  (res.1 ++
    [{ t with
       columns := res.2.2
       indexes := []
       description := t.description ++ " (normalized)" }],
   res.2.1)

/-- `DatabaseDesignAnalyzer.generate_normalized_schema`. -/
def generate_normalized_schema (s : DatabaseSchema) : DatabaseSchema :=
  let res := s.tables.foldl processTable ([], [])
  { name := s.name ++ "_normalized"
    tables := res.1
    relationships := s.relationships ++ res.2 }

/-- The key-indicator suffix of one column row in
`generate_er_diagram_dot`: ` [PK]` when `primary_key` is set,
otherwise ` [FK]` when `foreign_key` is truthy, otherwise empty. -/
def keyIndicator (c : Column) : String :=
  if c.primary_key then " [PK]"
  else if pyTruthyStr c.foreign_key then " [FK]"
  else ""

/-- One column row of a table node in the DOT output. -/
def columnRow (c : Column) : String :=
  "            <TR><TD ALIGN=\"LEFT\">" ++ c.name ++ " (" ++ c.data_type ++
  ")" ++ keyIndicator c ++ "</TD></TR>\n"

/-- One table node of the DOT output. -/
def tableNode (t : Table) : String :=
  "\n    // Table: " ++ t.name ++ "\n    " ++ t.name ++ " [label=<\n" ++
  "        <TABLE BORDER=\"1\" CELLBORDER=\"0\" CELLSPACING=\"0\">\n" ++
  "            <TR><TD BGCOLOR=\"lightblue\"><B>" ++ pyUpper t.name ++
  "</B></TD></TR>\n" ++
  String.join (t.columns.map columnRow) ++
  "        </TABLE>\n    >];\n"

/-- The relationship label: `relationship_type.replace("-", "\\n")`
(a literal backslash-n, a two-character sequence). -/
def relLabel (s : String) : String :=
  ⟨s.data.flatMap (fun c => if c = '-' then ['\\', 'n'] else [c])⟩

/-- One relationship edge of the DOT output. -/
def relEdge (r : Relationship) : String :=
  "\n    " ++ r.source_table ++ " -> " ++ r.target_table ++
  " [label=\"" ++ relLabel r.relationship_type ++ "\"];\n"

/-- `DatabaseDesignAnalyzer.generate_er_diagram_dot`. -/
def generate_er_diagram_dot (s : DatabaseSchema) : String :=
  "\ndigraph ER_Diagram \x7b\n    rankdir=TB;\n    node [shape=plaintext];\n" ++
  "    \n    // Title\n    title [label=<<B>" ++ s.name ++
  " ER Diagram</B>>, shape=plaintext, fontsize=16];\n    \n" ++
  String.join (s.tables.map tableNode) ++
  String.join (s.relationships.map relEdge) ++
  "\n\x7d"

/-- The customers table of the round-trip export scenario:
id INTEGER primary key not nullable, email VARCHAR(255) not nullable
unique. -/
def customersTable : Table :=
  { name := "customers"
    columns :=
      [{ name := "id"
         data_type := "INTEGER"
         nullable := false
         primary_key := true },
       { name := "email"
         data_type := "VARCHAR(255)"
         nullable := false
         unique := true }]
    primary_keys := ["id"]
    foreign_keys := [] }

/-- Schema holding only the customers table. -/
def customersSchema : DatabaseSchema :=
  { name := "shop", tables := [customersTable], relationships := [] }

/-- The orders table of the lookup-table-synthesis scenario: id primary
key and a non-key status column. -/
def ordersTable : Table :=
  { name := "orders"
    columns :=
      [{ name := "id"
         data_type := "INTEGER"
         nullable := false
         primary_key := true },
       { name := "status"
         data_type := "VARCHAR(50)"
         nullable := false }]
    primary_keys := ["id"]
    foreign_keys := [] }

/-- A pre-existing relationship, to observe concatenation of the
relationship lists. -/
def customersOrdersRel : Relationship :=
  { source_table := "customers"
    target_table := "orders"
    source_columns := ["id"]
    target_columns := ["customer_id"]
    relationship_type := "one-to-many" }

/-- Schema holding the orders table and one original relationship. -/
def ordersSchema : DatabaseSchema :=
  { name := "shop"
    tables := [ordersTable]
    relationships := [customersOrdersRel] }

/-- The order_items table of the 2NF scenario: composite primary key
(order_id, product_id) and non-key column order_date. -/
def orderItemsTable : Table :=
  { name := "order_items"
    columns :=
      [{ name := "order_id"
         data_type := "INTEGER"
         nullable := false
         primary_key := true },
       { name := "product_id"
         data_type := "INTEGER"
         nullable := false
         primary_key := true },
       { name := "order_date"
         data_type := "TIMESTAMP"
         nullable := false }]
    primary_keys := ["order_id", "product_id"]
    foreign_keys := [] }

/-- Schema holding only the order_items table. -/
def orderItemsSchema : DatabaseSchema :=
  { name := "sales", tables := [orderItemsTable], relationships := [] }

/-- The products table of the 3NF scenario: primary key id plus the
non-key columns category_id and category_name. -/
def productsTable : Table :=
  { name := "products"
    columns :=
      [{ name := "id"
         data_type := "INTEGER"
         nullable := false
         primary_key := true },
       { name := "category_id"
         data_type := "INTEGER" },
       { name := "category_name"
         data_type := "VARCHAR(100)" }]
    primary_keys := ["id"]
    foreign_keys := [] }

/-- Schema holding only the products table. -/
def productsSchema : DatabaseSchema :=
  { name := "catalog", tables := [productsTable], relationships := [] }

/-- A table with two non-key columns c_ida and c_idab: the name c_ida
does not end in _id (so suffix-stripping leaves it unchanged and it is
a substring of c_idab), but removing its internal _id occurrence gives
ca, which is not a substring of c_idab. -/
def internalIdTable : Table :=
  { name := "t"
    columns :=
      [{ name := "c_ida"
         data_type := "TEXT" },
       { name := "c_idab"
         data_type := "TEXT" }]
    primary_keys := []
    foreign_keys := [] }

/-- Schema holding only the internal-_id table. -/
def internalIdSchema : DatabaseSchema :=
  { name := "demo", tables := [internalIdTable], relationships := [] }

/-- A schema whose single table declares a column foreign key pointing
at a table absent from the schema (the target name is a parameter). -/
def danglingSchema (tgt : String) : DatabaseSchema :=
  { name := "demo"
    tables :=
      [{ name := "t"
         columns :=
           [{ name := "id"
              data_type := "INTEGER"
              nullable := false
              primary_key := true },
            { name := "ref_id"
              data_type := "INTEGER"
              foreign_key := some (tgt ++ ".id") }]
         primary_keys := ["id"]
         foreign_keys := [] }]
    relationships := [] }

/-- The first-normal-form section of the report, as built from the
per-table violation lists. -/
lemma checkFirstSection (s : DatabaseSchema) :
    (check_normalization_level s).first_normal_form =
      ⟨(s.tables.flatMap viol1NF).isEmpty, s.tables.flatMap viol1NF⟩ := rfl

/-- The second-normal-form violation list of the report concatenates the
per-table lists in schema order. -/
lemma checkSecondViolations (s : DatabaseSchema) :
    (check_normalization_level s).second_normal_form.violations =
      s.tables.flatMap viol2NF := rfl

/-- The third-normal-form violation list of the report concatenates the
per-table lists in schema order. -/
lemma checkThirdViolations (s : DatabaseSchema) :
    (check_normalization_level s).third_normal_form.violations =
      s.tables.flatMap viol3NF := rfl

/-- A 2NF violation emitted for a table always names that table, and
only arises when the table's primary key is composite. -/
lemma viol2NF_table_composite {t : Table} {v : ColumnViolation}
    (h : v ∈ viol2NF t) : v.table = t.name ∧ 1 < t.primary_keys.length := by
  unfold viol2NF at h
  split at h
  case _ pk0 pk1 rest heq =>
    obtain ⟨c, hc, hsome⟩ := List.mem_filterMap.mp h
    constructor
    · split at hsome
      · injection hsome with h2
        rw [← h2]
      · exact absurd hsome (by simp)
    · rw [heq]; simp
  case _ => exact absurd h (by simp)

/-- Claim C1, counterexample: for the claimed customers schema (email
of declared type VARCHAR(255)), the sqlite export does NOT contain the
column definition `email TEXT NOT NULL UNIQUE`: the key VARCHAR(255)
is absent from the sqlite type mapping (which only has VARCHAR), so
the type passes through verbatim. -/
theorem claim_C1_counterexample :
    pyIn "email TEXT NOT NULL UNIQUE"
      (export_schema_to_sql customersSchema "sqlite") = false := by decide

/-- Claim C1, amended: the sqlite export of the customers schema
contains the column definition `id INTEGER NOT NULL`, the column
definition `email VARCHAR(255) NOT NULL UNIQUE` (the declared type
passes through verbatim), and the constraint line `PRIMARY KEY (id)`. -/
theorem claim_C1_theorem :
    pyIn "id INTEGER NOT NULL"
      (export_schema_to_sql customersSchema "sqlite") = true ∧
    pyIn "email VARCHAR(255) NOT NULL UNIQUE"
      (export_schema_to_sql customersSchema "sqlite") = true ∧
    pyIn "PRIMARY KEY (id)"
      (export_schema_to_sql customersSchema "sqlite") = true :=
  ⟨by decide, by decide, by decide⟩

/-- Claim C2, counterexample: for the unsupported dialect `oracle` the
export does not fail in any way; it returns the DDL string rendered
with the mysql type mapping (the id column comes out as the
mysql-mapped `id INT NOT NULL`). -/
theorem claim_C2_counterexample :
    export_schema_to_sql customersSchema "oracle" =
      exportWithMapping customersSchema "oracle" mysqlTypes ∧
    pyIn "id INT NOT NULL"
      (export_schema_to_sql customersSchema "oracle") = true :=
  ⟨rfl, by decide⟩

/-- Claim C2, amended: for every schema and every dialect outside
mysql, postgresql and sqlite, export_schema_to_sql silently falls back
to the mysql type mapping and returns the rendered DDL string. -/
theorem claim_C2_theorem :
    ∀ (s : DatabaseSchema) (d : String),
      d ≠ "mysql" → d ≠ "postgresql" → d ≠ "sqlite" →
      export_schema_to_sql s d = exportWithMapping s d mysqlTypes := by
  intro s d h1 h2 h3
  unfold export_schema_to_sql typeMappingFor
  rw [if_neg h1, if_neg h2, if_neg h3]

/-- Claim C2, witness: the amended theorem applied to the customers
schema and the dialect `oracle`. -/
theorem claim_C2_witness :
    (("oracle" : String) ≠ "mysql" ∧ ("oracle" : String) ≠ "postgresql" ∧
      ("oracle" : String) ≠ "sqlite") ∧
    export_schema_to_sql customersSchema "oracle" =
      exportWithMapping customersSchema "oracle" mysqlTypes :=
  ⟨⟨by decide, by decide, by decide⟩,
   claim_C2_theorem customersSchema "oracle" (by decide) (by decide) (by decide)⟩

/-- Claim C3, counterexample: on a schema whose column foreign_key
names the absent table nonexistent_table, no error of any kind is
raised: the analyzer returns an ordinary (here all-compliant) report
and the exporter returns an ordinary CREATE TABLE string. -/
theorem claim_C3_counterexample :
    check_normalization_level (danglingSchema "nonexistent_table") =
      ⟨⟨true, []⟩, ⟨true, []⟩, ⟨true, []⟩, []⟩ ∧
    pyIn "CREATE TABLE t"
      (export_schema_to_sql (danglingSchema "nonexistent_table") "sqlite")
      = true :=
  ⟨by decide, by decide⟩

/-- Claim C3, amended: no foreign-key validation exists; for every
dangling target table name, the analyzer proceeds and returns its
ordinary report and the exporter proceeds and returns its CREATE TABLE
string (both ignore the dangling column foreign_key entirely). -/
theorem claim_C3_theorem :
    ∀ tgt : String,
      check_normalization_level (danglingSchema tgt) =
        ⟨⟨true, []⟩, ⟨true, []⟩, ⟨true, []⟩, []⟩ ∧
      pyIn "CREATE TABLE t"
        (export_schema_to_sql (danglingSchema tgt) "sqlite") = true := by
  intro tgt
  constructor
  · simp [check_normalization_level, danglingSchema, viol1NF, viol2NF,
      viol3NF, is1NFTrigger]
    constructor <;> decide
  · have h : export_schema_to_sql (danglingSchema tgt) "sqlite" =
        export_schema_to_sql (danglingSchema "nonexistent_table") "sqlite" :=
      rfl
    rw [h]
    decide

/-- Claim C4, counterexample: the column name c_ida does not end in
_id, so the claim's suffix-stripping leaves it unchanged and it is a
substring of its sibling c_idab; yet the code removes the INTERNAL
_id occurrence (Python str.replace removes every occurrence), tests
`ca` against c_idab, and reports no 3NF violation at all. -/
theorem claim_C4_counterexample :
    pyIn "c_ida" "c_idab" = true ∧
    (check_normalization_level internalIdSchema).third_normal_form.violations
      = [] :=
  ⟨by decide, by decide⟩

/-- Claim C4, amended: for every pair of distinct non-primary-key
columns (a, b) of a table, a 3NF violation record naming that table
and columns [a, b] is produced whenever a's name with EVERY occurrence
of _id removed is a substring of b's name; in particular the products
table with non-key columns category_id and category_name yields the
violation pairing (category_id, category_name). -/
theorem claim_C4_theorem :
    (∀ (s : DatabaseSchema) (t : Table) (a b : Column),
      t ∈ s.tables → a ∈ t.columns → b ∈ t.columns → a ≠ b →
      a.primary_key = false → b.primary_key = false →
      pyIn (stripIdStr a.name) b.name = true →
      (⟨t.name, [a.name, b.name], "Potential transitive dependency"⟩ :
        PairViolation) ∈
        (check_normalization_level s).third_normal_form.violations) ∧
    (⟨"products", ["category_id", "category_name"],
      "Potential transitive dependency"⟩ : PairViolation) ∈
      (check_normalization_level productsSchema).third_normal_form.violations := by
  constructor
  · intro s t a b ht ha hb hne hpa hpb hsub
    rw [checkThirdViolations]
    refine List.mem_flatMap_of_mem ht ?_
    unfold viol3NF
    refine List.mem_flatMap_of_mem ha ?_
    refine List.mem_filterMap.mpr ⟨b, hb, ?_⟩
    rw [if_pos ⟨hne, hpa, hpb, hsub⟩]
  · decide

/-- Claim C4, witness: the universal part applied to the products
schema at the concrete column pair (category_id, category_name). -/
theorem claim_C4_witness :
    ((⟨"category_id", "INTEGER", true, false, none, false, none, ""⟩ : Column)
        ∈ productsTable.columns ∧
      pyIn (stripIdStr "category_id") "category_name" = true) ∧
    (⟨"products", ["category_id", "category_name"],
      "Potential transitive dependency"⟩ : PairViolation) ∈
      (check_normalization_level productsSchema).third_normal_form.violations := by
  refine ⟨⟨by decide, by decide⟩, ?_⟩
  exact claim_C4_theorem.1 productsSchema productsTable
    ⟨"category_id", "INTEGER", true, false, none, false, none, ""⟩
    ⟨"category_name", "VARCHAR(100)", true, false, none, false, none, ""⟩
    (by decide) (by decide) (by decide) (by decide) (by decide) (by decide)
    (by decide)

/-- Claim C5, counterexample: the synthesized lookup table is named
orders_statuss (the code appends a bare `s` to the matched token
status), not orders_statuses as claimed. -/
theorem claim_C5_counterexample :
    ((generate_normalized_schema ordersSchema).tables.map
      Table.name).contains "orders_statuses" = false ∧
    (generate_normalized_schema ordersSchema).tables.map Table.name =
      ["orders_statuss", "orders"] :=
  ⟨by decide, by decide⟩

/-- Claim C5, amended: normalizing the orders schema yields the name
with suffix _normalized, a lookup table orders_statuss with an id
primary-key column and a status column copying the original declared
type, an orders table that lost status and gained the foreign-key
column orders_statuss_id referencing orders_statuss.id, and the
original relationships concatenated with the one new many-to-one
relationship orders to orders_statuss. -/
theorem claim_C5_theorem :
    (generate_normalized_schema ordersSchema).name =
      ordersSchema.name ++ "_normalized" ∧
    (generate_normalized_schema ordersSchema).tables =
      [{ name := "orders_statuss"
         columns :=
           [⟨"id", "INTEGER", false, true, none, false, none, ""⟩,
            ⟨"status", "VARCHAR(50)", true, false, none, false, none,
              "Status values"⟩]
         primary_keys := ["id"]
         foreign_keys := []
         description := "Lookup table for orders" },
       { name := "orders"
         columns :=
           [⟨"id", "INTEGER", false, true, none, false, none, ""⟩,
            ⟨"orders_statuss_id", "INTEGER", true, false,
              some "orders_statuss.id", false, none, ""⟩]
         primary_keys := ["id"]
         foreign_keys := []
         description := " (normalized)" }] ∧
    (generate_normalized_schema ordersSchema).relationships =
      ordersSchema.relationships ++
        [⟨"orders", "orders_statuss", ["orders_statuss_id"], ["id"],
          "many-to-one", ""⟩] :=
  ⟨rfl, by decide, by decide⟩

/-- Claim C6: second-normal-form violations only arise from tables
whose primary_keys has more than one member, and the order_items
scenario (composite key order_id, product_id with non-key column
order_date) produces the violation citing order_items and order_date. -/
theorem claim_C6_theorem :
    (∀ (s : DatabaseSchema) (v : ColumnViolation),
      v ∈ (check_normalization_level s).second_normal_form.violations →
      ∃ t, t ∈ s.tables ∧ v.table = t.name ∧ 1 < t.primary_keys.length) ∧
    (⟨"order_items", "order_date", "Partial dependency on composite key"⟩ :
      ColumnViolation) ∈
      (check_normalization_level orderItemsSchema).second_normal_form.violations := by
  constructor
  · intro s v hv
    rw [checkSecondViolations] at hv
    obtain ⟨t, ht, hvt⟩ := List.mem_flatMap.mp hv
    obtain ⟨h1, h2⟩ := viol2NF_table_composite hvt
    exact ⟨t, ht, h1, h2⟩
  · decide

/-- Claim C6, witness: the universal part applied to the order_items
schema at its concrete 2NF violation record. -/
theorem claim_C6_witness :
    ((⟨"order_items", "order_date", "Partial dependency on composite key"⟩ :
        ColumnViolation) ∈
      (check_normalization_level orderItemsSchema).second_normal_form.violations) ∧
    (∃ t, t ∈ orderItemsSchema.tables ∧
      (⟨"order_items", "order_date",
        "Partial dependency on composite key"⟩ : ColumnViolation).table =
        t.name ∧
      1 < t.primary_keys.length) :=
  ⟨by decide, claim_C6_theorem.1 orderItemsSchema _ (by decide)⟩

/-- Claim C7: for every schema in which no column name triggers the
1NF keyword test (json, array, list, multi as case-insensitive
substrings), the report is first-normal-form compliant with an empty
violation list. -/
theorem claim_C7_theorem :
    ∀ (s : DatabaseSchema),
      (∀ t ∈ s.tables, ∀ c ∈ t.columns, is1NFTrigger c = false) →
      (check_normalization_level s).first_normal_form.compliant = true ∧
      (check_normalization_level s).first_normal_form.violations = [] := by
  intro s h
  have hv : s.tables.flatMap viol1NF = [] := by
    rw [List.flatMap_eq_nil_iff]
    intro t ht
    unfold viol1NF
    rw [List.filterMap_eq_nil_iff]
    intro c hc
    simp [h t ht c hc]
  rw [checkFirstSection]
  rw [hv]
  exact ⟨rfl, rfl⟩

/-- Claim C7, witness: the theorem applied to the customers schema,
none of whose column names contains a trigger keyword. -/
theorem claim_C7_witness :
    (∀ t ∈ customersSchema.tables, ∀ c ∈ t.columns,
      is1NFTrigger c = false) ∧
    ((check_normalization_level customersSchema).first_normal_form.compliant
        = true ∧
      (check_normalization_level customersSchema).first_normal_form.violations
        = []) :=
  ⟨by decide, claim_C7_theorem customersSchema (by decide)⟩

/-- Claim C8: generate_normalized_schema builds a fresh DatabaseSchema
value distinct from its argument (its name strictly extends the
input's); in the embedding both analysis functions are pure, mirroring
the source, which reads the input and mutates only lists created by
copy() or fresh literals. -/
theorem claim_C8_theorem :
    ∀ s : DatabaseSchema,
      (generate_normalized_schema s).name = s.name ++ "_normalized" ∧
      generate_normalized_schema s ≠ s := by
  intro s
  refine ⟨rfl, fun h => ?_⟩
  have hname : (generate_normalized_schema s).name = s.name := by rw [h]
  have h2 : s.name ++ "_normalized" = s.name := by
    simpa [generate_normalized_schema] using hname
  have hlen := congrArg String.length h2
  simp [String.length_append] at hlen
  exact absurd hlen (by decide)

/-- Claim C9: export_schema_to_sql and check_normalization_level are
deterministic functions of the schema value alone: any two runs on
equal schemas return equal results (no hidden state exists in the
embedding, mirroring the source methods, which read nothing but their
arguments). -/
theorem claim_C9_theorem :
    ∀ (s1 s2 : DatabaseSchema), s1 = s2 →
      export_schema_to_sql s1 "mysql" = export_schema_to_sql s2 "mysql" ∧
      check_normalization_level s1 = check_normalization_level s2 := by
  intro s1 s2 h
  rw [h]
  exact ⟨rfl, rfl⟩

/-- Claim C9, witness: the theorem applied to two runs on the
customers schema. -/
theorem claim_C9_witness :
    (customersSchema = customersSchema) ∧
    (export_schema_to_sql customersSchema "mysql" =
        export_schema_to_sql customersSchema "mysql" ∧
      check_normalization_level customersSchema =
        check_normalization_level customersSchema) :=
  ⟨rfl, claim_C9_theorem customersSchema customersSchema rfl⟩

/-- Claim C10: in the ER diagram a column's key-indicator suffix is
` [PK]` exactly when primary_key is set, ` [FK]` exactly when
primary_key is unset and foreign_key is truthy (a non-empty string),
and a column that is both primary key and foreign key never gets
` [FK]`. -/
theorem claim_C10_theorem :
    ∀ c : Column,
      (keyIndicator c = " [PK]" ↔ c.primary_key = true) ∧
      (keyIndicator c = " [FK]" ↔
        (c.primary_key = false ∧ pyTruthyStr c.foreign_key = true)) ∧
      (c.primary_key = true → keyIndicator c ≠ " [FK]") := by
  intro c
  cases hp : c.primary_key <;> cases hf : pyTruthyStr c.foreign_key <;>
    simp [keyIndicator, hp, hf]

/-- Claim C10, witness: the theorem applied to a column that is both a
primary key and a foreign key; it is not rendered with ` [FK]`. -/
theorem claim_C10_witness :
    ((⟨"id", "INTEGER", false, true, some "other.id", false, none, ""⟩ :
        Column).primary_key = true) ∧
    keyIndicator
      ⟨"id", "INTEGER", false, true, some "other.id", false, none, ""⟩ ≠
      " [FK]" :=
  ⟨by decide,
   ( claim_C10_theorem
     ⟨"id", "INTEGER", false, true, some "other.id", false, none, ""⟩).2.2
     (by decide)⟩
